import Mathlib

/-!
Shallow embedding of the snapAML in-memory reference-data lookup engine and
risk scoring (src/src/services/CsvDataService.ts, src/src/services/csvData.service.ts,
and the company controller in src/unnamed/part_004), together with proofs of
the specified properties.

Conventions of the embedding:
* A raw CSV row (after the `csv-parse` stage with `columns: true`) is a record
  of `Option String` fields — `none` models a column absent from the row object,
  `some s` a present string value.
* JavaScript truthiness on strings (`undefined`/`null`/`""` falsy) is modelled
  by `jsOr` / `jsOrNull`.
* A JS `Map<string, T>` is modelled by an association list with at most one
  binding per key (`mapSet` / `mapGet`).
* A thrown exception is modelled by `Except.error`.
-/

namespace SnapAML

/-- JS `v || d` where `v : string | undefined`: `undefined` and `""` are falsy. -/
def jsOr (v : Option String) (d : String) : String :=
  match v with
  | none => d
  | some s => if s = "" then d else s

/-- JS `v || null` where `v : string | undefined`: falsy values collapse to `null`. -/
def jsOrNull (v : Option String) : Option String :=
  match v with
  | none => none
  | some s => if s = "" then none else some s

/-- JS `String.prototype.trim`: strip whitespace from both ends
(written over the character list so that it evaluates by kernel reduction). -/
def jsTrim (s : String) : String :=
  ⟨((s.data.dropWhile Char.isWhitespace).reverse.dropWhile Char.isWhitespace).reverse⟩

/-- JS `String.prototype.toLowerCase` (ASCII case folding, over the
character list). -/
def lowerStr (s : String) : String :=
  ⟨s.data.map Char.toLower⟩

/-- JS `row.key?.trim()` followed by the truthiness test `if (regcode)`:
yields the trimmed key when it is a non-empty string, otherwise nothing. -/
def effKey (v : Option String) : Option String :=
  match v with
  | none => none
  | some s => if jsTrim s = "" then none else some (jsTrim s)

/-- Substring test: does `pat` occur contiguously inside `s`?
(models JS `String.prototype.includes`). -/
def strContains (s pat : String) : Bool :=
  s.toList.tails.any (fun t => pat.toList.isPrefixOf t)

/-! ### The `Map<string, T>` model -/

/-- `Map.set`: at most one binding per key; setting a key removes any previous
binding for it. -/
def mapSet {α : Type} (m : List (String × α)) (k : String) (v : α) :
    List (String × α) :=
  m.filter (fun p => decide (p.1 ≠ k)) ++ [(k, v)]

/-- `Map.get`: the value bound to `k`, if any. -/
def mapGet {α : Type} (m : List (String × α)) (k : String) : Option α :=
  (m.find? (fun p => decide (p.1 = k))).map Prod.snd

/-- Number of bindings a map holds for a key. -/
def countKey {α : Type} (m : List (String × α)) (k : String) : Nat :=
  m.countP (fun p => decide (p.1 = k))

theorem mapGet_nil {α : Type} (k : String) : mapGet ([] : List (String × α)) k = none := rfl

theorem find?_filter_ne {α : Type} (m : List (String × α)) (k : String) :
    (m.filter (fun p => decide (p.1 ≠ k))).find? (fun p => decide (p.1 = k)) = none := by
  rw [List.find?_eq_none]
  intro p hp
  have hmem := List.of_mem_filter hp
  simp only [decide_eq_true_eq] at hmem ⊢
  exact hmem

theorem mapGet_set_self {α : Type} (m : List (String × α)) (k : String) (v : α) :
    mapGet (mapSet m k v) k = some v := by
  unfold mapGet mapSet
  rw [List.find?_append, find?_filter_ne]
  simp

theorem mapGet_set_ne {α : Type} (m : List (String × α)) (k k' : String) (v : α)
    (h : k' ≠ k) : mapGet (mapSet m k v) k' = mapGet m k' := by
  unfold mapGet mapSet
  rw [List.find?_append]
  have hne : ¬ (k = k') := fun hc => h hc.symm
  have h2 : ([(k, v)] : List (String × α)).find? (fun p => decide (p.1 = k')) = none := by
    simp [List.find?, hne]
  rw [h2]
  have h3 : (m.filter (fun p => decide (p.1 ≠ k))).find? (fun p => decide (p.1 = k'))
      = m.find? (fun p => decide (p.1 = k')) := by
    induction m with
    | nil => rfl
    | cons a as ih =>
      by_cases ha : a.1 = k'
      · have hak : ¬ (a.1 = k) := by rw [ha]; exact h
        rw [List.filter_cons_of_pos (by simp [hak]),
            List.find?_cons_of_pos _ (by simp [ha]),
            List.find?_cons_of_pos _ (by simp [ha])]
      · by_cases hak : a.1 = k
        · rw [List.filter_cons_of_neg (by simp [hak]),
              List.find?_cons_of_neg _ (by simp [ha]), ih]
        · rw [List.filter_cons_of_pos (by simp [hak]),
              List.find?_cons_of_neg _ (by simp [ha]),
              List.find?_cons_of_neg _ (by simp [ha]), ih]
  rw [h3]
  cases m.find? (fun p => decide (p.1 = k')) <;> simp

theorem countKey_set_self {α : Type} (m : List (String × α)) (k : String) (v : α) :
    countKey (mapSet m k v) k = 1 := by
  unfold countKey mapSet
  rw [List.countP_append]
  have h1 : (m.filter (fun p => decide (p.1 ≠ k))).countP (fun p => decide (p.1 = k)) = 0 := by
    rw [List.countP_eq_zero]
    intro p hp
    have hmem := List.of_mem_filter hp
    simp only [decide_eq_true_eq] at hmem ⊢
    exact hmem
  rw [h1]
  simp [List.countP, List.countP.go]

theorem countKey_set_ne {α : Type} (m : List (String × α)) (k k' : String) (v : α)
    (h : k' ≠ k) : countKey (mapSet m k v) k' = countKey m k' := by
  unfold countKey mapSet
  rw [List.countP_append]
  have h1 : ([(k, v)] : List (String × α)).countP (fun p => decide (p.1 = k')) = 0 := by
    simp [List.countP, List.countP.go, h.symm]
  rw [h1, Nat.add_zero]
  induction m with
  | nil => rfl
  | cons a as ih =>
    by_cases hak : a.1 = k
    · have ha' : ¬ (a.1 = k') := by rw [hak]; intro hc; exact h hc.symm
      rw [List.filter_cons_of_neg (by simp [hak]), ih, List.countP_cons]
      simp [ha']
    · rw [List.filter_cons_of_pos (by simp [hak]), List.countP_cons,
          List.countP_cons, ih]

/-- Well-formedness of the map model: each key has exactly as many bindings as
`mapGet` reports (zero or one). -/
def mapWF {α : Type} (m : List (String × α)) : Prop :=
  ∀ k, countKey m k = if (mapGet m k).isSome then 1 else 0

theorem mapWF_nil {α : Type} : mapWF ([] : List (String × α)) := by
  intro k; rfl

theorem mapWF_set {α : Type} (m : List (String × α)) (k : String) (v : α)
    (h : mapWF m) : mapWF (mapSet m k v) := by
  intro k'
  by_cases hk : k' = k
  · subst hk
    rw [countKey_set_self, mapGet_set_self]
    rfl
  · rw [countKey_set_ne m k k' v hk, mapGet_set_ne m k k' v hk]
    exact h k'

/-! ### The keyed index build

Each of the three CSV loaders follows one pattern
(`CsvDataService.ts:113-126, 154-163, 189-198` and the csvData.service.ts
twins): per parsed row, take the key column, optional-chain `trim()` it,
drop the row if the result is falsy, otherwise `Map.set` the mapped record
under the trimmed key. -/

/-- One `.on('data', row => ...)` callback step of a loader. -/
def indexStep {ρ α : Type} (keyOf : ρ → Option String) (mk : ρ → α)
    (m : List (String × α)) (row : ρ) : List (String × α) :=
  match effKey (keyOf row) with
  | none => m
  | some k => mapSet m k (mk row)

/-- Feeding a stream of parsed rows into an existing map. -/
def loadInto {ρ α : Type} (keyOf : ρ → Option String) (mk : ρ → α)
    (m : List (String × α)) (rows : List ρ) : List (String × α) :=
  rows.foldl (indexStep keyOf mk) m

/-- Building an index from scratch. -/
def buildIndex {ρ α : Type} (keyOf : ρ → Option String) (mk : ρ → α)
    (rows : List ρ) : List (String × α) :=
  loadInto keyOf mk [] rows

theorem loadInto_get {ρ α : Type} (keyOf : ρ → Option String) (mk : ρ → α)
    (rows : List ρ) (m : List (String × α)) (t : String) :
    mapGet (loadInto keyOf mk m rows) t
      = match rows.reverse.find? (fun r => decide (effKey (keyOf r) = some t)) with
        | some r => some (mk r)
        | none => mapGet m t := by
  induction rows generalizing m with
  | nil => rfl
  | cons r rs ih =>
    show mapGet (loadInto keyOf mk (indexStep keyOf mk m r) rs) t = _
    rw [ih]
    have hrev : (r :: rs).reverse = rs.reverse ++ [r] := by simp
    rw [hrev, List.find?_append]
    cases hfind : rs.reverse.find? (fun r => decide (effKey (keyOf r) = some t)) with
    | some r' => simp
    | none =>
      simp only [Option.none_or]
      unfold indexStep
      cases hk : effKey (keyOf r) with
      | none => simp [List.find?, hk]
      | some k =>
        by_cases hkt : k = t
        · subst hkt
          simp [List.find?, hk, mapGet_set_self]
        · have : ¬ (effKey (keyOf r) = some t) := by
            rw [hk]; intro hc; exact hkt (Option.some.inj hc)
          simp [List.find?, hk, hkt, this, mapGet_set_ne m k t (mk r) (fun h => hkt h.symm)]

theorem mapWF_loadInto {ρ α : Type} (keyOf : ρ → Option String) (mk : ρ → α)
    (rows : List ρ) (m : List (String × α)) (h : mapWF m) :
    mapWF (loadInto keyOf mk m rows) := by
  induction rows generalizing m with
  | nil => exact h
  | cons r rs ih =>
    show mapWF (loadInto keyOf mk (indexStep keyOf mk m r) rs)
    apply ih
    unfold indexStep
    cases effKey (keyOf r) with
    | none => exact h
    | some k => exact mapWF_set m k (mk r) h

theorem buildIndex_get {ρ α : Type} (keyOf : ρ → Option String) (mk : ρ → α)
    (rows : List ρ) (t : String) :
    mapGet (buildIndex keyOf mk rows) t
      = (rows.reverse.find? (fun r => decide (effKey (keyOf r) = some t))).map mk := by
  unfold buildIndex
  rw [loadInto_get]
  cases rows.reverse.find? (fun r => decide (effKey (keyOf r) = some t)) <;> rfl

theorem mapWF_buildIndex {ρ α : Type} (keyOf : ρ → Option String) (mk : ρ → α)
    (rows : List ρ) : mapWF (buildIndex keyOf mk rows) :=
  mapWF_loadInto keyOf mk rows [] mapWF_nil

/-! ### Typed records and row mappers (csvData.service.ts:6-69, 181-201, 238-249, 284-299) -/

/-- A parsed row of registry.csv. -/
structure RegistryRow where
  regcode : Option String
  name : Option String
  address : Option String
  registered : Option String
  type_text : Option String
  terminated : Option String
  sepa : Option String
  regtype_text : Option String
  type : Option String
  closed : Option String
  region : Option String
  city : Option String
deriving DecidableEq, Repr, Inhabited

/-- A parsed row of taxpayer_rating.csv. -/
structure TaxRow where
  Registracijas_kods : Option String
  Reitings : Option String
  Skaidrojums : Option String
  Informacijas_atjaunosanas_datums : Option String
deriving DecidableEq, Repr, Inhabited

/-- A parsed row of insolvency.csv. -/
structure InsolvencyRow where
  debtor_registration_number : Option String
  proceeding_resolution_name : Option String
  proceeding_started_on : Option String
  proceeding_ended_on : Option String
  proceeding_form : Option String
  proceeding_type : Option String
  court_name : Option String
deriving DecidableEq, Repr, Inhabited

/-- `RegistryData` (csvData.service.ts:6-20). -/
structure RegistryData where
  name : String
  address : String
  registered : String
  type_text : String
  terminated : String
  is_active : Bool
  sepa : String
  regtype_text : String
  type : String
  closed : String
  region : String
  city : String
deriving DecidableEq, Repr, Inhabited

/-- `TaxData` (csvData.service.ts:22-27). -/
structure TaxData where
  rating : String
  explanation : String
  rating_updated_date : String
deriving DecidableEq, Repr, Inhabited

/-- `InsolvencyData` (csvData.service.ts:29-38). -/
structure InsolvencyData where
  proceeding_resolution_name : String
  has_insolvency : Bool
  proceeding_started_on : String
  proceeding_ended_on : String
  proceeding_form : String
  proceeding_type : String
  court_name : String
deriving DecidableEq, Repr, Inhabited

/-- `AggregateData` (csvData.service.ts:40-69). Fields typed
`string | null` in the source are `Option String` here. -/
structure AggregateData where
  name : String
  address : String
  registered : String
  type_text : String
  terminated : String
  is_active : Bool
  sepa : String
  regtype_text : String
  type : String
  closed : String
  region : String
  city : String
  rating : Option String
  explanation : Option String
  rating_updated_date : Option String
  proceeding_resolution_name : Option String
  has_insolvency : Bool
  proceeding_started_on : Option String
  proceeding_ended_on : Option String
  proceeding_form : Option String
  proceeding_type : Option String
  court_name : Option String
deriving DecidableEq, Repr, Inhabited

/-- The registry record mapper (csvData.service.ts:184-198). `is_active` is
`!row.terminated || row.terminated.trim() === ''`. -/
def mkRegistryData (row : RegistryRow) : RegistryData :=
  { name := jsOr row.name ""
    address := jsOr row.address ""
    registered := jsOr row.registered ""
    type_text := jsOr row.type_text ""
    terminated := jsOr row.terminated ""
    is_active :=
      match row.terminated with
      | none => true
      | some s => (s == "") || (jsTrim s == "")
    sepa := jsOr row.sepa ""
    regtype_text := jsOr row.regtype_text ""
    type := jsOr row.type ""
    closed := jsOr row.closed ""
    region := jsOr row.region ""
    city := jsOr row.city "" }

/-- The tax-rating record mapper (csvData.service.ts:241-246). -/
def mkTaxData (row : TaxRow) : TaxData :=
  { rating := jsOr row.Reitings ""
    explanation := jsOr row.Skaidrojums ""
    rating_updated_date := jsOr row.Informacijas_atjaunosanas_datums "" }

/-- The insolvency record mapper (csvData.service.ts:287-296); `has_insolvency`
is hard-coded `true` — if a record exists, `has_insolvency` is true. -/
def mkInsolvencyData (row : InsolvencyRow) : InsolvencyData :=
  { proceeding_resolution_name := jsOr row.proceeding_resolution_name ""
    has_insolvency := true
    proceeding_started_on := jsOr row.proceeding_started_on ""
    proceeding_ended_on := jsOr row.proceeding_ended_on ""
    proceeding_form := jsOr row.proceeding_form ""
    proceeding_type := jsOr row.proceeding_type ""
    court_name := jsOr row.court_name "" }

/-! ### The service state, lifecycle gate and aggregate lookup
(csvData.service.ts:71-130, 319-369) -/

/-- The `CsvDataService` instance state: the three indexes and the
`isInitialized` flag. -/
structure ServiceState where
  registryMap : List (String × RegistryData)
  taxMap : List (String × TaxData)
  insolvencyMap : List (String × InsolvencyData)
  isInitialized : Bool
deriving DecidableEq, Repr, Inhabited

/-- The freshly constructed service: empty maps, not initialized. -/
def initialState : ServiceState :=
  { registryMap := [], taxMap := [], insolvencyMap := [], isInitialized := false }

/-- The outcome of streaming one CSV source during a load: the rows the parser
delivered (each already applied to the index before any error), and whether the
stream completed without error (`ok = true` models the `'end'` event, `ok =
false` a rejected load promise). -/
structure LoadAttempt (ρ : Type) where
  rows : List ρ
  ok : Bool
deriving DecidableEq, Repr

/-- `init()` (csvData.service.ts:98-121): a no-op when already initialized;
otherwise runs the three loads (each `Map.set`s into its own map as rows
stream in), and sets `isInitialized` only if all three resolved. The returned
`Bool` is `true` when `init()` resolved and `false` when it threw (the caught
error is re-thrown, propagating the failure to the caller). -/
def init (s : ServiceState) (reg : LoadAttempt RegistryRow)
    (tax : LoadAttempt TaxRow) (ins : LoadAttempt InsolvencyRow) :
    ServiceState × Bool :=
  if s.isInitialized then (s, true)
  else
    let rm := loadInto (fun r => r.regcode) mkRegistryData s.registryMap reg.rows
    let tm := loadInto (fun r => r.Registracijas_kods) mkTaxData s.taxMap tax.rows
    let im := loadInto (fun r => r.debtor_registration_number) mkInsolvencyData
      s.insolvencyMap ins.rows
    let ok := reg.ok && tax.ok && ins.ok
    ({ registryMap := rm, taxMap := tm, insolvencyMap := im, isInitialized := ok }, ok)

/-- The errors the read path can throw (csvData.service.ts:128, 326). -/
inductive SvcError where
  /-- `'CsvDataService not initialized. Call init() first.'` -/
  | uninitialized : SvcError
  /-- The NotFoundError names the registration number:
  `` `Registration number ${regNumber} not found in registry` ``. -/
  | notFound (regNumber : String) : SvcError
deriving DecidableEq, Repr

/-- `isReady()` (csvData.service.ts:367-369). -/
def isReady (s : ServiceState) : Bool := s.isInitialized

/-- `getAggregateData(regNumber)` (csvData.service.ts:319-362): precondition
gate, mandatory registry lookup, optional tax/insolvency probes, field-union
merge with JS `|| null` / `|| false` defaulting. -/
def getAggregateData (s : ServiceState) (regNumber : String) :
    Except SvcError AggregateData :=
  if s.isInitialized = false then .error .uninitialized
  else
    match mapGet s.registryMap regNumber with
    | none => .error (.notFound regNumber)
    | some registryData =>
      let taxData := mapGet s.taxMap regNumber
      let insolvencyData := mapGet s.insolvencyMap regNumber
      .ok
        { name := registryData.name
          address := registryData.address
          registered := registryData.registered
          type_text := registryData.type_text
          terminated := registryData.terminated
          is_active := registryData.is_active
          sepa := registryData.sepa
          regtype_text := registryData.regtype_text
          type := registryData.type
          closed := registryData.closed
          region := registryData.region
          city := registryData.city
          rating := jsOrNull (taxData.map (fun t => t.rating))
          explanation := jsOrNull (taxData.map (fun t => t.explanation))
          rating_updated_date := jsOrNull (taxData.map (fun t => t.rating_updated_date))
          proceeding_resolution_name :=
            jsOrNull (insolvencyData.map (fun i => i.proceeding_resolution_name))
          has_insolvency := (insolvencyData.map (fun i => i.has_insolvency)).getD false
          proceeding_started_on := jsOrNull (insolvencyData.map (fun i => i.proceeding_started_on))
          proceeding_ended_on := jsOrNull (insolvencyData.map (fun i => i.proceeding_ended_on))
          proceeding_form := jsOrNull (insolvencyData.map (fun i => i.proceeding_form))
          proceeding_type := jsOrNull (insolvencyData.map (fun i => i.proceeding_type))
          court_name := jsOrNull (insolvencyData.map (fun i => i.court_name)) }

/-! ### Risk scoring (CompanyController.calculateOverallRisk, src/unnamed/part_004)

The repository carries two controller variants. The variant at
part_004:607-639 consumes structured external results (`apiResults.sanctions`,
`apiResults.pep_check`) and an adverse-media result weighted at 30%; the
variant at part_004:202-227 consumes a flat sanctions result and has neither
the PEP nor the media term. Both return only the level string; the running
`riskScore` is factored out here so the numeric score can be stated. Scores
are modelled in `Rat` (the media weight is `0.3`). -/

/-- `SanctionCheckResult` (CsvDataService.ts companion, externalApi variant). -/
structure SanctionCheckResult where
  is_sanctioned : Bool
  sources : List String
  details : Option String
deriving DecidableEq, Repr, Inhabited

/-- The `pep_check` component of `ExternalApiResults`. -/
structure PepCheckResult where
  is_pep : Bool
  details : Option String
deriving DecidableEq, Repr, Inhabited

/-- `ExternalApiResults` (structured shape consumed at part_004:621-624). -/
structure ExternalApiResults where
  sanctions : SanctionCheckResult
  pep_check : PepCheckResult
  checked_at : String
deriving DecidableEq, Repr, Inhabited

/-- `AdverseMediaResult` (adverseMedia.service.ts): `risk_score` is 0-100. -/
structure AdverseMediaResult where
  risk_score : Rat
  negative_mentions : Nat
  summary : String
  sources : List String
  analyzed_at : String
deriving DecidableEq, Repr, Inhabited

/-- The flat result of `ExternalApiService.checkAll` consumed by the variant
at part_004:215 (`apiResults.is_sanctioned`). -/
structure FlatApiResults where
  vies_valid : Bool
  vies_address : Option String
  is_sanctioned : Bool
  sanction_details : Option String
  sanction_sources : List String
deriving DecidableEq, Repr, Inhabited

/-- `localData.rating && localData.rating.toLowerCase().includes('poor')`
(part_004:630 / part_004:218): `null` and `""` are falsy, otherwise a
case-insensitive substring test for "poor". -/
def ratingIsPoor (rating : Option String) : Bool :=
  match rating with
  | none => false
  | some s => if s = "" then false else strContains (lowerStr s) "poor"

/-- The running `riskScore` of the media-weighted variant
(part_004:607-632): +30 inactive, +40 insolvency, +50 sanctioned,
+25 PEP, `risk_score * 0.3`, +20 poor rating. -/
def calculateOverallRiskScore (localData : AggregateData)
    (apiResults : ExternalApiResults) (aiResults : AdverseMediaResult) : Rat :=
  (if !localData.is_active then 30 else 0)
  + (if localData.has_insolvency then 40 else 0)
  + (if apiResults.sanctions.is_sanctioned then 50 else 0)
  + (if apiResults.pep_check.is_pep then 25 else 0)
  + aiResults.risk_score * (3 / 10)
  + (if ratingIsPoor localData.rating then 20 else 0)

/-- The threshold mapping shared by both variants
(part_004:634-638 / part_004:222-226). -/
def riskLevel (riskScore : Rat) : String :=
  if riskScore ≥ 80 then "CRITICAL"
  else if riskScore ≥ 50 then "HIGH"
  else if riskScore ≥ 25 then "MEDIUM"
  else "LOW"

/-- `calculateOverallRisk` of part_004:607-639. -/
def calculateOverallRisk (localData : AggregateData)
    (apiResults : ExternalApiResults) (aiResults : AdverseMediaResult) : String :=
  riskLevel (calculateOverallRiskScore localData apiResults aiResults)

/-- The running `riskScore` of the plain variant (part_004:202-221):
no PEP and no media term. -/
def calculateOverallRiskScoreFlat (localData : AggregateData)
    (apiResults : FlatApiResults) : Rat :=
  (if !localData.is_active then 30 else 0)
  + (if localData.has_insolvency then 40 else 0)
  + (if apiResults.is_sanctioned then 50 else 0)
  + (if ratingIsPoor localData.rating then 20 else 0)

/-- `calculateOverallRisk` of part_004:202-227. -/
def calculateOverallRiskFlat (localData : AggregateData)
    (apiResults : FlatApiResults) : String :=
  riskLevel (calculateOverallRiskScoreFlat localData apiResults)

/-- The call site part_004:127-130: `generateRiskProfile` passes `localData`
that is `null` whenever the aggregate lookup threw (the not-found early
return at part_004:116-121 is commented out). The body then evaluates
`localData.is_active` (part_004:209), which on `null` raises
`TypeError: Cannot read properties of null` — modelled as `Except.error`. -/
def calculateOverallRiskFlatFromCaller (localData : Option AggregateData)
    (apiResults : FlatApiResults) : Except String String :=
  match localData with
  | none => .error "TypeError: Cannot read properties of null (reading 'is_active')"
  | some l => .ok (calculateOverallRiskFlat l apiResults)

/-! ### Concrete sample data for witnesses and counterexamples -/

/-- A registry.csv row for company 40003000000 (active: empty `terminated`). -/
def sampleRegRow : RegistryRow :=
  { regcode := some "40003000000"
    name := some "Alpha SIA"
    address := some "Riga"
    registered := some "2001-01-01"
    type_text := some "SIA"
    terminated := some ""
    sepa := none
    regtype_text := none
    type := none
    closed := none
    region := none
    city := some "Riga" }

/-- A taxpayer_rating.csv row for the same key whose `Reitings` column is
absent, so the stored rating is the empty string. -/
def sampleTaxRow : TaxRow :=
  { Registracijas_kods := some "40003000000"
    Reitings := none
    Skaidrojums := some "Nav datu"
    Informacijas_atjaunosanas_datums := some "2024-01-01" }

/-- An insolvency.csv row for the same key. -/
def sampleInsRow : InsolvencyRow :=
  { debtor_registration_number := some "40003000000"
    proceeding_resolution_name := some "Proceedings closed"
    proceeding_started_on := some "2020-01-01"
    proceeding_ended_on := none
    proceeding_form := none
    proceeding_type := none
    court_name := none }

/-- A second insolvency row sharing the key of `sampleInsRow` but with a
different resolution text. -/
def sampleInsRow2 : InsolvencyRow :=
  { debtor_registration_number := some " 40003000000 "
    proceeding_resolution_name := some "Proceedings reopened"
    proceeding_started_on := some "2021-05-05"
    proceeding_ended_on := none
    proceeding_form := none
    proceeding_type := none
    court_name := none }

/-- An insolvency row whose key column trims to the empty string. -/
def noKeyInsRow : InsolvencyRow :=
  { debtor_registration_number := some "   "
    proceeding_resolution_name := some "orphan row"
    proceeding_started_on := none
    proceeding_ended_on := none
    proceeding_form := none
    proceeding_type := none
    court_name := none }

/-- The service after a successful `init()` over one row per source. -/
def readyState : ServiceState :=
  (init initialState ⟨[sampleRegRow], true⟩ ⟨[sampleTaxRow], true⟩
    ⟨[sampleInsRow], true⟩).1

/-- The service after an `init()` whose tax-rating load failed (the registry
and insolvency streams completed). -/
def failedState : ServiceState :=
  (init initialState ⟨[sampleRegRow], true⟩ ⟨[sampleTaxRow], false⟩
    ⟨[sampleInsRow], true⟩).1

/-- The aggregate record the ready service returns for the sample company. -/
def readyAggregate : AggregateData :=
  match getAggregateData readyState "40003000000" with
  | .ok a => a
  | .error _ => default

/-- An aggregate with no risk signals: active, no insolvency, no tax match. -/
def cleanAggregate : AggregateData :=
  { name := "Alpha SIA", address := "Riga", registered := "2001-01-01",
    type_text := "SIA", terminated := "", is_active := true, sepa := "",
    regtype_text := "", type := "", closed := "", region := "", city := "Riga",
    rating := none, explanation := none, rating_updated_date := none,
    proceeding_resolution_name := none, has_insolvency := false,
    proceeding_started_on := none, proceeding_ended_on := none,
    proceeding_form := none, proceeding_type := none, court_name := none }

/-- An aggregate for a terminated company with an insolvency match and no tax
rating. -/
def terminatedInsolventAggregate : AggregateData :=
  { cleanAggregate with
    terminated := "2015-06-01", is_active := false, has_insolvency := true,
    proceeding_resolution_name := some "Proceedings closed" }

/-- Structured external results whose only positive flag is the PEP check. -/
def pepOnlyApi : ExternalApiResults :=
  { sanctions := { is_sanctioned := false, sources := [], details := none },
    pep_check := { is_pep := true, details := none },
    checked_at := "2024-01-01T00:00:00Z" }

/-- An adverse-media result with a zero risk score. -/
def zeroMedia : AdverseMediaResult :=
  { risk_score := 0, negative_mentions := 0,
    summary := "No significant adverse media found", sources := [],
    analyzed_at := "2024-01-01T00:00:00Z" }

/-- Flat external results with a sanctions hit. -/
def sanctionedFlatApi : FlatApiResults :=
  { vies_valid := false, vies_address := none, is_sanctioned := true,
    sanction_details := none, sanction_sources := ["OFAC"] }

/-- Modelled from the spec's words (§4.5 and claim C3), for comparison with
the code's scoring: the sum of exactly the four base contributions — +30
inactive, +40 insolvency, +50 sanctioned, +20 when the rating text contains
the case-insensitive substring "poor" — plus `mediaScore * 0.3` when a media
score is supplied, and nothing else. -/
def specClaimedScore (localData : AggregateData) (sanctioned : Bool)
    (mediaScore : Option Rat) : Rat :=
  (if localData.is_active = false then 30 else 0)
  + (if localData.has_insolvency = true then 40 else 0)
  + (if sanctioned = true then 50 else 0)
  + (if strContains (lowerStr (localData.rating.getD "")) "poor" then 20 else 0)
  + (match mediaScore with
     | some m => m * (3 / 10)
     | none => 0)

/-! ## Theorems for the claims -/

theorem ratingIsPoor_eq_specPoor (r : Option String) :
    ratingIsPoor r = strContains (lowerStr (r.getD "")) "poor" := by
  cases r with
  | none => decide
  | some s =>
    simp only [ratingIsPoor, Option.getD]
    by_cases h : s = ""
    · subst h
      simp only [if_pos rfl]
      decide
    · simp [h]

/-- C10: a lookup attempted while the service is not Ready fails with the
UninitializedError; once Ready, that error is never raised — lookups are pure
and `init()` is a no-op on a ready service, so readiness persists. -/
theorem C10_lookup_gate (s : ServiceState) (k : String) :
    (s.isInitialized = false → getAggregateData s k = .error .uninitialized)
    ∧ (s.isInitialized = true →
        ∀ k2, getAggregateData s k2 ≠ .error .uninitialized)
    ∧ (s.isInitialized = true →
        ∀ reg tax ins, init s reg tax ins = (s, true)) := by
  refine ⟨?_, ?_, ?_⟩
  · intro h
    simp [getAggregateData, h]
  · intro h k2
    simp only [getAggregateData, h]
    cases mapGet s.registryMap k2 with
    | none => simp
    | some r => simp
  · intro h reg tax ins
    simp [init, h]

/-- C10 witness: the theorem applied to the fresh service and to the ready
sample service. -/
theorem C10_lookup_gate_witness :
    getAggregateData initialState "40003000000" = .error .uninitialized
    ∧ getAggregateData readyState "40003000000" ≠ .error .uninitialized :=
  ⟨(C10_lookup_gate initialState "40003000000").1 rfl,
   (C10_lookup_gate readyState "40003000000").2.1 (by decide) "40003000000"⟩

/-- C1 counterexample: the lookup does not trim its argument, while registry
keys are stored trimmed. For `" 40003000000"` the trimmed value is a key of
the registry index of the ready service, yet `getAggregateData` raises the
NotFoundError naming `" 40003000000"` — refuting the claim's assertion that a
registration number whose trimmed value is a key never gets this error. -/
theorem C1_counterexample :
    (mapGet readyState.registryMap (jsTrim " 40003000000")).isSome = true
    ∧ getAggregateData readyState " 40003000000"
        = .error (.notFound " 40003000000") := by
  constructor
  · decide
  · exact rfl

/-- C1 (amended): `getAggregateData` looks its argument up verbatim. On a
ready service it fails with the NotFoundError naming the given registration
number exactly when that exact string is not a key of the registry index —
whatever the tax and insolvency indexes hold — and succeeds otherwise. -/
theorem C1_notFound_characterization (s : ServiceState) (k : String)
    (hready : s.isInitialized = true) :
    (getAggregateData s k = .error (.notFound k) ↔ mapGet s.registryMap k = none)
    ∧ (∀ r, mapGet s.registryMap k = some r → ∃ a, getAggregateData s k = .ok a) := by
  constructor
  · cases h : mapGet s.registryMap k with
    | none => simp [getAggregateData, hready, h]
    | some r => simp [getAggregateData, hready, h]
  · intro r hr
    simp [getAggregateData, hready, hr]

/-- C1 witness: on the ready sample service, an absent key yields its
NotFoundError and the present key yields a record. -/
theorem C1_notFound_characterization_witness :
    getAggregateData readyState "90000000000" = .error (.notFound "90000000000")
    ∧ ∃ a, getAggregateData readyState "40003000000" = .ok a :=
  ⟨(C1_notFound_characterization readyState "90000000000" (by decide)).1.mpr
      (by decide),
   (C1_notFound_characterization readyState "40003000000" (by decide)).2
      (mkRegistryData sampleRegRow) (by decide)⟩

/-- C2 counterexample: the sample tax index holds a record for the key with
`rating = ""` (its source column was absent), yet the aggregate's `rating` is
`null`, not the matched record's value — the JS `|| null` defaulting collapses
empty-string fields of a matched record to null, refuting the claim that the
aggregate's tax fields equal the matched record's fields. -/
theorem C2_counterexample :
    mapGet readyState.taxMap "40003000000" = some (mkTaxData sampleTaxRow)
    ∧ (mkTaxData sampleTaxRow).rating = ""
    ∧ (getAggregateData readyState "40003000000").toOption.map (fun a => a.rating)
        = some none
    ∧ (getAggregateData readyState "40003000000").toOption.map (fun a => a.rating)
        ≠ some (some (mkTaxData sampleTaxRow).rating) := by
  exact ⟨by decide, rfl, by decide, by decide⟩

/-- C2 (amended): for a key present in the registry index, the aggregate is a
field-union where registry fields are copied verbatim (and, being typed
non-null, are never null); each tax field equals the matched record's field
when that field is a non-empty string and is null when the field is empty or
no tax record matches; likewise for the insolvency fields, with
`has_insolvency` equal to the matched record's flag, or `false` with null
fields when no insolvency record matches. -/
theorem C2_merge_characterization (s : ServiceState) (k : String)
    (r : RegistryData) (hready : s.isInitialized = true)
    (hreg : mapGet s.registryMap k = some r) :
    ∃ a, getAggregateData s k = .ok a
      ∧ (a.name = r.name ∧ a.address = r.address ∧ a.registered = r.registered
         ∧ a.type_text = r.type_text ∧ a.terminated = r.terminated
         ∧ a.is_active = r.is_active ∧ a.sepa = r.sepa
         ∧ a.regtype_text = r.regtype_text ∧ a.type = r.type
         ∧ a.closed = r.closed ∧ a.region = r.region ∧ a.city = r.city)
      ∧ (∀ t, mapGet s.taxMap k = some t →
           a.rating = (if t.rating = "" then none else some t.rating)
           ∧ a.explanation = (if t.explanation = "" then none else some t.explanation)
           ∧ a.rating_updated_date =
               (if t.rating_updated_date = "" then none else some t.rating_updated_date))
      ∧ (mapGet s.taxMap k = none →
           a.rating = none ∧ a.explanation = none ∧ a.rating_updated_date = none)
      ∧ (∀ i, mapGet s.insolvencyMap k = some i →
           a.has_insolvency = i.has_insolvency
           ∧ a.proceeding_resolution_name =
               (if i.proceeding_resolution_name = "" then none
                else some i.proceeding_resolution_name)
           ∧ a.proceeding_started_on =
               (if i.proceeding_started_on = "" then none else some i.proceeding_started_on)
           ∧ a.proceeding_ended_on =
               (if i.proceeding_ended_on = "" then none else some i.proceeding_ended_on)
           ∧ a.proceeding_form =
               (if i.proceeding_form = "" then none else some i.proceeding_form)
           ∧ a.proceeding_type =
               (if i.proceeding_type = "" then none else some i.proceeding_type)
           ∧ a.court_name = (if i.court_name = "" then none else some i.court_name))
      ∧ (mapGet s.insolvencyMap k = none →
           a.has_insolvency = false ∧ a.proceeding_resolution_name = none
           ∧ a.proceeding_started_on = none ∧ a.proceeding_ended_on = none
           ∧ a.proceeding_form = none ∧ a.proceeding_type = none
           ∧ a.court_name = none) := by
  refine ⟨{ name := r.name, address := r.address, registered := r.registered,
            type_text := r.type_text, terminated := r.terminated,
            is_active := r.is_active, sepa := r.sepa,
            regtype_text := r.regtype_text, type := r.type, closed := r.closed,
            region := r.region, city := r.city,
            rating := jsOrNull ((mapGet s.taxMap k).map (fun t => t.rating)),
            explanation := jsOrNull ((mapGet s.taxMap k).map (fun t => t.explanation)),
            rating_updated_date :=
              jsOrNull ((mapGet s.taxMap k).map (fun t => t.rating_updated_date)),
            proceeding_resolution_name :=
              jsOrNull ((mapGet s.insolvencyMap k).map (fun i => i.proceeding_resolution_name)),
            has_insolvency :=
              ((mapGet s.insolvencyMap k).map (fun i => i.has_insolvency)).getD false,
            proceeding_started_on :=
              jsOrNull ((mapGet s.insolvencyMap k).map (fun i => i.proceeding_started_on)),
            proceeding_ended_on :=
              jsOrNull ((mapGet s.insolvencyMap k).map (fun i => i.proceeding_ended_on)),
            proceeding_form :=
              jsOrNull ((mapGet s.insolvencyMap k).map (fun i => i.proceeding_form)),
            proceeding_type :=
              jsOrNull ((mapGet s.insolvencyMap k).map (fun i => i.proceeding_type)),
            court_name :=
              jsOrNull ((mapGet s.insolvencyMap k).map (fun i => i.court_name)) },
          ?_, ?_, ?_, ?_, ?_, ?_⟩
  · simp [getAggregateData, hready, hreg]
  · exact ⟨rfl, rfl, rfl, rfl, rfl, rfl, rfl, rfl, rfl, rfl, rfl, rfl⟩
  · intro t ht
    rw [ht]
    exact ⟨rfl, rfl, rfl⟩
  · intro ht
    rw [ht]
    exact ⟨rfl, rfl, rfl⟩
  · intro i hi
    rw [hi]
    exact ⟨rfl, rfl, rfl, rfl, rfl, rfl, rfl⟩
  · intro hi
    rw [hi]
    exact ⟨rfl, rfl, rfl, rfl, rfl, rfl, rfl⟩

/-- C2 witness: the theorem applied to the ready sample service. -/
theorem C2_merge_characterization_witness :
    ∃ a, getAggregateData readyState "40003000000" = .ok a
      ∧ a.name = (mkRegistryData sampleRegRow).name := by
  obtain ⟨a, ha, hfields, _, _, _, _⟩ :=
    C2_merge_characterization readyState "40003000000"
      (mkRegistryData sampleRegRow) (by decide) (by decide)
  exact ⟨a, ha, hfields.1⟩

/-- C3 counterexample: on an aggregate with no risk signals, external results
whose only positive flag is the PEP check, and a zero media score, the
media-capable scoring variant returns 25 while the claimed sum of
contributions is 0 — the PEP flag, an external-check flag outside the claimed
list, contributes +25 to the score. -/
theorem C3_counterexample :
    calculateOverallRiskScore cleanAggregate pepOnlyApi zeroMedia = 25
    ∧ specClaimedScore cleanAggregate pepOnlyApi.sanctions.is_sanctioned
        (some zeroMedia.risk_score) = 0
    ∧ calculateOverallRiskScore cleanAggregate pepOnlyApi zeroMedia
        ≠ specClaimedScore cleanAggregate pepOnlyApi.sanctions.is_sanctioned
            (some zeroMedia.risk_score) := by
  refine ⟨?_, ?_, ?_⟩ <;>
    norm_num [calculateOverallRiskScore, specClaimedScore, cleanAggregate,
      pepOnlyApi, zeroMedia, ratingIsPoor, strContains, lowerStr]

/-- C3 (amended): the media-weighted scoring variant's numeric score equals
the claimed sum of contributions (+30 inactive, +40 insolvency, +50
sanctioned, +20 "poor" rating, media score × 0.3) plus one further
contribution of +25 when the external PEP flag is set; the plain scoring
variant realises exactly the claimed sum with no media score supplied. -/
theorem C3_score_contributions (a : AggregateData) (api : ExternalApiResults)
    (ai : AdverseMediaResult) (fapi : FlatApiResults) :
    calculateOverallRiskScore a api ai
      = specClaimedScore a api.sanctions.is_sanctioned (some ai.risk_score)
        + (if api.pep_check.is_pep then 25 else 0)
    ∧ calculateOverallRiskScoreFlat a fapi
      = specClaimedScore a fapi.is_sanctioned none := by
  constructor
  · simp only [calculateOverallRiskScore, specClaimedScore,
      ratingIsPoor_eq_specPoor]
    cases ha : a.is_active <;> cases hh : a.has_insolvency <;>
      cases hs : api.sanctions.is_sanctioned <;>
      cases hp : api.pep_check.is_pep <;>
      cases hpoor : strContains (lowerStr (a.rating.getD "")) "poor" <;>
      simp [ha, hh, hs, hp, hpoor] <;> ring
  · simp only [calculateOverallRiskScoreFlat, specClaimedScore,
      ratingIsPoor_eq_specPoor]
    cases ha : a.is_active <;> cases hh : a.has_insolvency <;>
      cases hs : fapi.is_sanctioned <;>
      cases hpoor : strContains (lowerStr (a.rating.getD "")) "poor" <;>
      simp [ha, hh, hs, hpoor]

/-- C3 witness: the amended theorem applied to the clean aggregate with the
sanctions-only flat results. -/
theorem C3_score_contributions_witness :
    calculateOverallRiskScoreFlat cleanAggregate sanctionedFlatApi
      = specClaimedScore cleanAggregate sanctionedFlatApi.is_sanctioned none :=
  (C3_score_contributions cleanAggregate pepOnlyApi zeroMedia sanctionedFlatApi).2

/-- C4: the level thresholds are exact half-open bands — CRITICAL iff the
score is at least 80, HIGH iff in [50, 80), MEDIUM iff in [25, 50), LOW iff
below 25 — and the score is not capped at 100: an inactive company with an
insolvency record and a sanctions hit (no poor rating, no media score)
scores 30 + 40 + 50 = 120 and is classified CRITICAL. -/
theorem C4_risk_thresholds :
    (∀ q : Rat,
      (riskLevel q = "CRITICAL" ↔ 80 ≤ q)
      ∧ (riskLevel q = "HIGH" ↔ 50 ≤ q ∧ q < 80)
      ∧ (riskLevel q = "MEDIUM" ↔ 25 ≤ q ∧ q < 50)
      ∧ (riskLevel q = "LOW" ↔ q < 25))
    ∧ calculateOverallRiskScoreFlat terminatedInsolventAggregate sanctionedFlatApi
        = 120
    ∧ calculateOverallRiskFlat terminatedInsolventAggregate sanctionedFlatApi
        = "CRITICAL" := by
  have hscore : calculateOverallRiskScoreFlat terminatedInsolventAggregate
      sanctionedFlatApi = 120 := by
    norm_num [calculateOverallRiskScoreFlat, terminatedInsolventAggregate,
      cleanAggregate, sanctionedFlatApi, ratingIsPoor]
  refine ⟨fun q => ?_, hscore, ?_⟩
  · unfold riskLevel
    split_ifs with h1 h2 h3
    · exact ⟨iff_of_true rfl h1,
        iff_of_false (by decide) (fun hc => absurd h1 (not_le.mpr hc.2)),
        iff_of_false (by decide) (fun hc => by linarith [hc.2]),
        iff_of_false (by decide) (fun hc => by linarith)⟩
    · exact ⟨iff_of_false (by decide) h1,
        iff_of_true rfl ⟨h2, lt_of_not_ge h1⟩,
        iff_of_false (by decide) (fun hc => by linarith [hc.2]),
        iff_of_false (by decide) (fun hc => by linarith)⟩
    · exact ⟨iff_of_false (by decide) h1,
        iff_of_false (by decide) (fun hc => h2 hc.1),
        iff_of_true rfl ⟨h3, lt_of_not_ge h2⟩,
        iff_of_false (by decide) (fun hc => by linarith)⟩
    · exact ⟨iff_of_false (by decide) h1,
        iff_of_false (by decide) (fun hc => h2 hc.1),
        iff_of_false (by decide) (fun hc => h3 hc.1),
        iff_of_true rfl (lt_of_not_ge h3)⟩
  · unfold calculateOverallRiskFlat
    rw [hscore]
    norm_num [riskLevel]

/-- C4 witness: the threshold band applied to the uncapped score 120. -/
theorem C4_risk_thresholds_witness : riskLevel 120 = "CRITICAL" :=
  (C4_risk_thresholds.1 120).1.mpr (by norm_num)

/-- C5: the claim that the scoring function never faults for any input its
caller may supply is wrong on the code: the flat-variant call site may pass a
null aggregate (the not-found early return is commented out), and the body's
`localData.is_active` access then raises a TypeError instead of returning a
level; with any non-null aggregate the function does always return one of the
four levels. -/
theorem C5_null_aggregate_faults :
    calculateOverallRiskFlatFromCaller none sanctionedFlatApi
      = .error "TypeError: Cannot read properties of null (reading 'is_active')"
    ∧ calculateOverallRiskFlatFromCaller (some cleanAggregate) sanctionedFlatApi
      = .ok "HIGH"
    ∧ ∀ (l : AggregateData) (api : FlatApiResults),
        calculateOverallRiskFlat l api = "CRITICAL"
        ∨ calculateOverallRiskFlat l api = "HIGH"
        ∨ calculateOverallRiskFlat l api = "MEDIUM"
        ∨ calculateOverallRiskFlat l api = "LOW" := by
  refine ⟨rfl, ?_, ?_⟩
  · show Except.ok (calculateOverallRiskFlat cleanAggregate sanctionedFlatApi)
      = Except.ok "HIGH"
    have : calculateOverallRiskScoreFlat cleanAggregate sanctionedFlatApi = 50 := by
      norm_num [calculateOverallRiskScoreFlat, cleanAggregate, sanctionedFlatApi,
        ratingIsPoor]
    unfold calculateOverallRiskFlat
    rw [this]
    norm_num [riskLevel]
  · intro l api
    unfold calculateOverallRiskFlat riskLevel
    split_ifs <;> simp

/-- C6: for every parsed registry row, the derived `is_active` is false iff
the termination-date field trims to a non-empty string (equivalently, true
iff the field is absent or trims to the empty string); and `is_active` is a
function of the termination-date field alone, fixed at record-build time —
records are immutable values, never mutated afterwards. -/
theorem C6_is_active_characterization (row : RegistryRow) :
    ((mkRegistryData row).is_active = false
      ↔ jsTrim (row.terminated.getD "") ≠ "")
    ∧ ((mkRegistryData row).is_active = true
      ↔ jsTrim (row.terminated.getD "") = "")
    ∧ (∀ row2 : RegistryRow, row.terminated = row2.terminated →
        (mkRegistryData row).is_active = (mkRegistryData row2).is_active) := by
  have hact : ∀ rw2 : RegistryRow, (mkRegistryData rw2).is_active
      = (match rw2.terminated with
         | none => true
         | some s => (s == "") || (jsTrim s == "")) := fun _ => rfl
  refine ⟨?_, ?_, ?_⟩
  · rw [hact]
    cases hrow : row.terminated with
    | none => decide
    | some s =>
      simp only [Option.getD]
      by_cases h : s = ""
      · subst h
        decide
      · simp [h, String.ext_iff]
  · rw [hact]
    cases hrow : row.terminated with
    | none => decide
    | some s =>
      simp only [Option.getD]
      by_cases h : s = ""
      · subst h
        decide
      · simp [h, String.ext_iff]
  · intro row2 h
    rw [hact, hact, h]

/-- C6 witness: the characterization applied to the sample registry row,
whose termination date is the empty string. -/
theorem C6_is_active_characterization_witness :
    (mkRegistryData sampleRegRow).is_active = true :=
  (C6_is_active_characterization sampleRegRow).2.1.mpr (by decide)

/-- C7: for a key the registry resolves, the aggregate's `has_insolvency` is
true iff the key is present in the insolvency index, independent of any field
inside the matched record — every record the insolvency loader stores carries
`has_insolvency = true`, and a miss yields `false`. -/
theorem C7_has_insolvency_presence (s : ServiceState) (k : String)
    (a : AggregateData) (rows : List InsolvencyRow)
    (hmap : s.insolvencyMap
      = buildIndex (fun r => r.debtor_registration_number) mkInsolvencyData rows)
    (hok : getAggregateData s k = .ok a) :
    (a.has_insolvency = true ↔ (mapGet s.insolvencyMap k).isSome = true)
    ∧ (∀ k2 rec, mapGet s.insolvencyMap k2 = some rec
        → rec.has_insolvency = true) := by
  have hstored : ∀ k2 rec, mapGet s.insolvencyMap k2 = some rec
      → rec.has_insolvency = true := by
    intro k2 rec hr
    rw [hmap, buildIndex_get] at hr
    cases hfind : rows.reverse.find?
        (fun rr => decide (effKey rr.debtor_registration_number = some k2)) with
    | none => rw [hfind] at hr; simp at hr
    | some rr =>
      rw [hfind] at hr
      have hrec : mkInsolvencyData rr = rec := by simpa using hr
      rw [← hrec]
      rfl
  refine ⟨?_, hstored⟩
  by_cases hinit : s.isInitialized = true
  · simp only [getAggregateData, hinit] at hok
    simp only [Bool.true_eq_false, if_false] at hok
    cases hregk : mapGet s.registryMap k with
    | none => rw [hregk] at hok; simp at hok
    | some r =>
      rw [hregk] at hok
      simp only [Except.ok.injEq] at hok
      rw [← hok]
      cases hik : mapGet s.insolvencyMap k with
      | none => simp
      | some rec => simp [hstored k rec hik]
  · have hfalse : s.isInitialized = false := by
      cases hb : s.isInitialized
      · rfl
      · exact absurd hb hinit
    simp [getAggregateData, hfalse] at hok

/-- C7 witness: the theorem applied to the ready sample service, whose
insolvency index holds the sample key. -/
theorem C7_has_insolvency_presence_witness :
    readyAggregate.has_insolvency = true := by
  have hok : getAggregateData readyState "40003000000" = .ok readyAggregate := rfl
  exact (C7_has_insolvency_presence readyState "40003000000" readyAggregate
    [sampleInsRow] rfl hok).1.mpr (by decide)

/-- C8: a row whose key field is absent or trims empty is silently skipped —
the index is unchanged by it; any other row is inserted under its trimmed key
with overwrite semantics; consequently the built index binds a key to exactly
one record, the one mapped from the last row bearing that key. -/
theorem C8_index_build (ρ α : Type) (keyOf : ρ → Option String) (f : ρ → α)
    (m : List (String × α)) (r : ρ) (rows : List ρ) (t : String) :
    (effKey (keyOf r) = none → indexStep keyOf f m r = m)
    ∧ (∀ k, effKey (keyOf r) = some k → indexStep keyOf f m r = mapSet m k (f r))
    ∧ (∀ sRaw, keyOf r = some sRaw → jsTrim sRaw ≠ "" →
        effKey (keyOf r) = some (jsTrim sRaw))
    ∧ mapGet (buildIndex keyOf f rows) t
        = (rows.reverse.find? (fun rr => decide (effKey (keyOf rr) = some t))).map f
    ∧ countKey (buildIndex keyOf f rows) t
        = (if (mapGet (buildIndex keyOf f rows) t).isSome then 1 else 0) := by
  refine ⟨?_, ?_, ?_, buildIndex_get keyOf f rows t, mapWF_buildIndex keyOf f rows t⟩
  · intro h
    simp [indexStep, h]
  · intro k h
    simp [indexStep, h]
  · intro sRaw h hne
    simp [effKey, h, hne]

/-- C8 witness: the theorem applied to the insolvency loader over two rows
sharing a key (last row wins, one binding) and to a row with an unusable
key (skipped). -/
theorem C8_index_build_witness :
    mapGet (buildIndex (fun r : InsolvencyRow => r.debtor_registration_number)
        mkInsolvencyData [sampleInsRow, sampleInsRow2]) "40003000000"
      = some (mkInsolvencyData sampleInsRow2)
    ∧ countKey (buildIndex (fun r : InsolvencyRow => r.debtor_registration_number)
        mkInsolvencyData [sampleInsRow, sampleInsRow2]) "40003000000" = 1
    ∧ indexStep (fun r : InsolvencyRow => r.debtor_registration_number)
        mkInsolvencyData [] noKeyInsRow = [] := by
  have h := C8_index_build InsolvencyRow InsolvencyData
    (fun r => r.debtor_registration_number) mkInsolvencyData [] noKeyInsRow
    [sampleInsRow, sampleInsRow2] "40003000000"
  refine ⟨?_, ?_, h.1 (by decide)⟩
  · rw [h.2.2.2.1]
    decide
  · rw [h.2.2.2.2, h.2.2.2.1]
    decide

/-- Helper: a lookup on a not-initialized service state throws the
UninitializedError. -/
theorem getAggregate_unready (s : ServiceState) (k : String)
    (h : s.isInitialized = false) :
    getAggregateData s k = .error .uninitialized := by
  simp [getAggregateData, h]

/-- C9 counterexample: the gate has no terminal Failed state. After an
`init()` whose tax load failed (the call throws and the service is not
Ready), a second `init()` over sound sources resolves and the service
becomes Ready — refuting the claim that the service can never subsequently
become Ready. -/
theorem C9_counterexample :
    (init initialState ⟨[sampleRegRow], true⟩ ⟨[sampleTaxRow], false⟩
        ⟨[sampleInsRow], true⟩).2 = false
    ∧ failedState.isInitialized = false
    ∧ (init failedState ⟨[sampleRegRow], true⟩ ⟨[sampleTaxRow], true⟩
        ⟨[sampleInsRow], true⟩).2 = true
    ∧ (init failedState ⟨[sampleRegRow], true⟩ ⟨[sampleTaxRow], true⟩
        ⟨[sampleInsRow], true⟩).1.isInitialized = true := by
  exact ⟨by decide, by decide, by decide, by decide⟩

/-- C9 (amended): if any of the three loads fails, `init()` propagates the
failure to its caller (it throws), the service is left not Ready, and every
subsequent lookup fails with the UninitializedError — so no partially loaded
data is observable through the read path. There is, however, no terminal
Failed state: a later `init()` may succeed and make the service Ready. -/
theorem C9_init_failure_not_ready (s : ServiceState)
    (reg : LoadAttempt RegistryRow) (tax : LoadAttempt TaxRow)
    (ins : LoadAttempt InsolvencyRow) (hs : s.isInitialized = false)
    (hfail : reg.ok = false ∨ tax.ok = false ∨ ins.ok = false) :
    (init s reg tax ins).2 = false
    ∧ (init s reg tax ins).1.isInitialized = false
    ∧ ∀ k, getAggregateData (init s reg tax ins).1 k = .error .uninitialized := by
  have hok : (reg.ok && tax.ok && ins.ok) = false := by
    rcases hfail with h | h | h <;> simp [h]
  have h1 : (init s reg tax ins).2 = false := by
    simp [init, hs, hok]
  have h2 : (init s reg tax ins).1.isInitialized = false := by
    simp [init, hs, hok]
  exact ⟨h1, h2, fun k => getAggregate_unready _ k h2⟩

/-- C9 witness: the amended theorem applied to a fresh service whose tax load
fails. -/
theorem C9_init_failure_not_ready_witness :
    (init initialState ⟨[sampleRegRow], true⟩ ⟨[sampleTaxRow], false⟩
        ⟨[sampleInsRow], true⟩).2 = false
    ∧ getAggregateData failedState "40003000000" = .error .uninitialized := by
  have h := C9_init_failure_not_ready initialState ⟨[sampleRegRow], true⟩
    ⟨[sampleTaxRow], false⟩ ⟨[sampleInsRow], true⟩ rfl (Or.inr (Or.inl rfl))
  exact ⟨h.1, h.2.2 "40003000000"⟩

end SnapAML
